import Mathlib

/-!
Verification of the session lifecycle manager of `mcp_tools.py`
(`PlayWrightManager.__new__` / `__init__` / `ensure_browser` / `close`,
the `kill_all_chrome_instances` process cleanup, and the configuration
mutation performed by `browser_save_as_pdf`).

The Python code drives an external automation library; every call into
that library (`async_playwright().start()`, `launch`, `new_context`,
`new_page`, the `close`/`stop` calls) is modelled by an environment
`Env : ExtOp → Except Unit Nat` that either returns a fresh handle
(a `Nat`) or raises.  Handles held by the manager are `Option Nat`.
The `page` attribute of the manager is special: `__init__` never
assigns it, so it can be *absent* (Python would raise `AttributeError`
on access), which is distinct from holding `None`.  It is therefore
modelled as `Option (Option Nat)`: `none` = attribute never set,
`some none` = attribute is `None`, `some (some p)` = a live page.
-/

namespace McpTools

/-- One call into the external Playwright library, as issued by the
manager.  `launch` and `newContextViewport` record their arguments so
that traces distinguish a viewport-carrying context creation from a
default one. -/
inductive ExtOp where
  | pwStart
  | launch (browserType : List Char) (headless : Bool)
  | newContextViewport (width height : Nat)
  | newContextDefault
  | newPage
  | ctxClose
  | browserClose
  | pwStop
  | pageClose
deriving DecidableEq, Repr

/-- The behaviour of the external library during one manager operation:
for each kind of call, either a fresh handle or a raised exception. -/
abbrev Env := ExtOp → Except Unit Nat

/-- The ways a manager operation can fail: an exception raised by an
external library call, or Python's `AttributeError` on reading the
never-assigned `self.page` attribute. -/
inductive PError where
  | extFailure
  | attrError
deriving DecidableEq, Repr

/-- The state of the `PlayWrightManager` singleton.  `initFlag` models
the Python attribute `initialized` set by `__new__`/`__init__`. -/
structure Manager where
  browser_type : List Char
  headless : Bool
  viewport_width : Nat
  viewport_height : Nat
  initFlag : Bool
  playwright : Option Nat
  browser : Option Nat
  context : Option Nat
  page : Option (Option Nat)
deriving DecidableEq, Repr

def chromiumChars : List Char := "chromium".toList

/-- `PlayWrightManager.__init__` running on the (singleton) instance
`m`: config fields are assigned only when `initialized` is still
false; `playwright`, `browser`, `context` are unconditionally reset to
`None`; `page` is never touched (in particular never created). -/
def pwInit (m : Manager) (browser_type : List Char) (headless : Bool)
    (viewport_width viewport_height : Nat) : Manager :=
  let m1 :=
    if m.initFlag then m
    else { m with browser_type := browser_type, headless := headless,
                  viewport_width := viewport_width,
                  viewport_height := viewport_height,
                  initFlag := true }
  { m1 with playwright := none, browser := none, context := none }

/-- The bare instance produced by `__new__` before `__init__` runs:
`initialized = False`, no attribute assigned yet (config fields get
placeholder values; `page` is absent). -/
def blankManager : Manager :=
  { browser_type := [], headless := false, viewport_width := 0,
    viewport_height := 0, initFlag := false, playwright := none,
    browser := none, context := none, page := none }

/-- First construction of the singleton with the module-level default
arguments (`PlayWrightManager()` at import time): `chromium`,
`headless=False`, viewport 1920×1080. -/
def defaultConstruct : Manager :=
  pwInit blankManager chromiumChars false 1920 1080

/-- Result of one statement block of a manager operation: the updated
state, the external calls issued (in order), and `some e` when the
block raised. -/
abbrev StepResult := Manager × List ExtOp × Option PError

/-- Sequencing of statement blocks: a raised exception propagates,
skipping every later block (the Python methods have no try/except). -/
def andThen (r : StepResult) (f : Manager → StepResult) : StepResult :=
  match r with
  | (m, t, some e) => (m, t, some e)
  | (m, t, none) =>
      match f m with
      | (m2, t2, e2) => (m2, t ++ t2, e2)

/-- `if not self.playwright: self.playwright = await pw.async_playwright().start()` -/
def stepEnsurePlaywright (env : Env) (m : Manager) : StepResult :=
  match m.playwright with
  | some _ => (m, [], none)
  | none =>
      match env ExtOp.pwStart with
      | Except.ok h => ({ m with playwright := some h }, [ExtOp.pwStart], none)
      | Except.error _ => (m, [ExtOp.pwStart], some PError.extFailure)

/-- The `if not self.browser:` block: launch the browser, open a
context with the stored viewport, open the first page — each call in
order, state updated after each success, a raise propagating out. -/
def stepLaunchBrowser (env : Env) (m : Manager) : StepResult :=
  match m.browser with
  | some _ => (m, [], none)
  | none =>
      match env (ExtOp.launch m.browser_type m.headless) with
      | Except.error _ =>
          (m, [ExtOp.launch m.browser_type m.headless], some PError.extFailure)
      | Except.ok b =>
          let m1 := { m with browser := some b }
          match env (ExtOp.newContextViewport m.viewport_width m.viewport_height) with
          | Except.error _ =>
              (m1, [ExtOp.launch m.browser_type m.headless,
                    ExtOp.newContextViewport m.viewport_width m.viewport_height],
               some PError.extFailure)
          | Except.ok c =>
              let m2 := { m1 with context := some c }
              match env ExtOp.newPage with
              | Except.error _ =>
                  (m2, [ExtOp.launch m.browser_type m.headless,
                        ExtOp.newContextViewport m.viewport_width m.viewport_height,
                        ExtOp.newPage], some PError.extFailure)
              | Except.ok p =>
                  ({ m2 with page := some (some p) },
                   [ExtOp.launch m.browser_type m.headless,
                    ExtOp.newContextViewport m.viewport_width m.viewport_height,
                    ExtOp.newPage], none)

/-- `if not self.context: self.context = await self.browser.new_context()`
— note: no viewport argument on this path. -/
def stepEnsureContext (env : Env) (m : Manager) : StepResult :=
  match m.context with
  | some _ => (m, [], none)
  | none =>
      match env ExtOp.newContextDefault with
      | Except.ok c =>
          ({ m with context := some c }, [ExtOp.newContextDefault], none)
      | Except.error _ => (m, [ExtOp.newContextDefault], some PError.extFailure)

/-- `if not self.page: self.page = await self.context.new_page()` —
reading `self.page` when the attribute was never assigned raises
`AttributeError`. -/
def stepEnsurePage (env : Env) (m : Manager) : StepResult :=
  match m.page with
  | none => (m, [], some PError.attrError)
  | some (some _) => (m, [], none)
  | some none =>
      match env ExtOp.newPage with
      | Except.ok p => ({ m with page := some (some p) }, [ExtOp.newPage], none)
      | Except.error _ => (m, [ExtOp.newPage], some PError.extFailure)

/-- `PlayWrightManager.ensure_browser`: the four statement blocks in
source order, then `return self.page`.  On success the returned value
is the (inner) content of the `page` attribute. -/
def ensure_browser (m : Manager) (env : Env) :
    Manager × List ExtOp × Except PError (Option Nat) :=
  match andThen (andThen (andThen (stepEnsurePlaywright env m)
      (stepLaunchBrowser env)) (stepEnsureContext env)) (stepEnsurePage env) with
  | (m2, t, some e) => (m2, t, Except.error e)
  | (m2, t, none) =>
      match m2.page with
      | some v => (m2, t, Except.ok v)
      | none => (m2, t, Except.error PError.attrError)

/-- `if self.context: await self.context.close(); self.context = None` -/
def stepCloseContext (env : Env) (m : Manager) : StepResult :=
  match m.context with
  | none => (m, [], none)
  | some _ =>
      match env ExtOp.ctxClose with
      | Except.ok _ => ({ m with context := none }, [ExtOp.ctxClose], none)
      | Except.error _ => (m, [ExtOp.ctxClose], some PError.extFailure)

/-- `if self.browser: await self.browser.close(); self.browser = None` -/
def stepCloseBrowser (env : Env) (m : Manager) : StepResult :=
  match m.browser with
  | none => (m, [], none)
  | some _ =>
      match env ExtOp.browserClose with
      | Except.ok _ => ({ m with browser := none }, [ExtOp.browserClose], none)
      | Except.error _ => (m, [ExtOp.browserClose], some PError.extFailure)

/-- `if self.playwright: await self.playwright.stop(); self.playwright = None` -/
def stepStopPlaywright (env : Env) (m : Manager) : StepResult :=
  match m.playwright with
  | none => (m, [], none)
  | some _ =>
      match env ExtOp.pwStop with
      | Except.ok _ => ({ m with playwright := none }, [ExtOp.pwStop], none)
      | Except.error _ => (m, [ExtOp.pwStop], some PError.extFailure)

/-- `if self.page: await self.page.close(); self.page = None` —
reading `self.page` raises `AttributeError` when the attribute was
never assigned. -/
def stepClosePage (env : Env) (m : Manager) : StepResult :=
  match m.page with
  | none => (m, [], some PError.attrError)
  | some none => (m, [], none)
  | some (some _) =>
      match env ExtOp.pageClose with
      | Except.ok _ => ({ m with page := some none }, [ExtOp.pageClose], none)
      | Except.error _ => (m, [ExtOp.pageClose], some PError.extFailure)

/-- `PlayWrightManager.close`: context, browser, playwright, page — in
that source order, no try/except around any step. -/
def close (m : Manager) (env : Env) : StepResult :=
  andThen (andThen (andThen (stepCloseContext env m)
      (stepCloseBrowser env)) (stepStopPlaywright env)) (stepClosePage env)

/-- `True` exactly when the `page` attribute holds a live page handle. -/
def pageNonNull (m : Manager) : Bool :=
  match m.page with
  | some (some _) => true
  | _ => false

/-- The strict ownership chain of the spec: `context` only with
`browser`, `page` only with `context`, `browser` only with the engine
handle (`playwright`). -/
def chainInv (m : Manager) : Bool :=
  (!m.context.isSome || m.browser.isSome) &&
  (!(pageNonNull m) || m.context.isSome) &&
  (!m.browser.isSome || m.playwright.isSome)

/-- The stored configuration of the session. -/
def config (m : Manager) : List Char × Bool × Nat × Nat :=
  (m.browser_type, m.headless, m.viewport_width, m.viewport_height)

/-- The configuration-handling prelude of `browser_save_as_pdf`
(lines 317–321): close the session when `browser_type != 'chromium'
or not headless`, then assign `browser_type = 'chromium'` and
`headless = False` on the manager.  A raise inside `close` propagates
before the assignments run. -/
def savePdfConfig (m : Manager) (env : Env) : StepResult :=
  if m.browser_type ≠ chromiumChars ∨ m.headless = false then
    match close m env with
    | (m1, t1, some e) => (m1, t1, some e)
    | (m1, t1, none) =>
        ({ m1 with browser_type := chromiumChars, headless := false }, t1, none)
  else
    ({ m with browser_type := chromiumChars, headless := false }, [], none)

/-- One scanned OS process as seen through
`psutil.process_iter(attrs=['pid', 'name', 'exe'])`; `name` and `exe`
may be `None`. -/
structure ProcInfo where
  pid : Nat
  name : Option (List Char)
  exe : Option (List Char)
deriving DecidableEq, Repr

/-- `str.lower()` on the character sequence. -/
def lowerChars (s : List Char) : List Char := s.map Char.toLower

def startsWithSeq : List Char → List Char → Bool
  | [], _ => true
  | _ :: _, [] => false
  | a :: as, b :: bs => a == b && startsWithSeq as bs

/-- Python's `needle in hay` on character sequences. -/
def containsSeq (needle : List Char) : List Char → Bool
  | [] => startsWithSeq needle []
  | c :: rest => startsWithSeq needle (c :: rest) || containsSeq needle rest

def chromeChars : List Char := "chrome".toList
def playwrightChars : List Char := "playwright".toList

/-- The filter condition of `kill_all_chrome_instances`, with Python
truthiness: `process.info['name'] and 'chrome' in name.lower() and
process.info['exe'] and 'playwright' in exe.lower()`. -/
def shouldTerminate (p : ProcInfo) : Bool :=
  match p.name with
  | none => false
  | some n =>
      !n.isEmpty && containsSeq chromeChars (lowerChars n) &&
      (match p.exe with
       | none => false
       | some e => !e.isEmpty && containsSeq playwrightChars (lowerChars e))

/-- The scan loop of `kill_all_chrome_instances`: the processes to
which a terminate signal is sent, in scan order. -/
def kill_all_chrome_instances : List ProcInfo → List ProcInfo
  | [] => []
  | p :: rest =>
      if shouldTerminate p then p :: kill_all_chrome_instances rest
      else kill_all_chrome_instances rest

/-- The claim's browser-signature condition: the process name matches
`'chrome'` case-insensitively. -/
def nameMatchesBrowserSig (p : ProcInfo) : Prop :=
  ∃ n, p.name = some n ∧ containsSeq chromeChars (lowerChars n) = true

/-- The claim's automation-engine condition: the executable path
contains `'playwright'` case-insensitively. -/
def exeMatchesEngineSig (p : ProcInfo) : Prop :=
  ∃ e, p.exe = some e ∧ containsSeq playwrightChars (lowerChars e) = true

/-- Sequential `ensure_browser` calls, threading the manager state and
collecting each call's result. -/
def runEnsureSeq (m : Manager) : List Env → Manager × List (Except PError (Option Nat))
  | [] => (m, [])
  | env :: rest =>
      match ensure_browser m env with
      | (m1, _, r) =>
          match runEnsureSeq m1 rest with
          | (m2, rs) => (m2, r :: rs)

/-- An environment in which every external call succeeds. -/
def envAllOk : Env := fun _ => Except.ok 0

/-- An environment in which `context.close()` raises and every other
call succeeds. -/
def envCtxCloseThrow : Env := fun op =>
  if op = ExtOp.ctxClose then Except.error () else Except.ok 0

/-- An environment in which `browser.close()` raises and every other
call succeeds. -/
def envBrowserCloseThrow : Env := fun op =>
  if op = ExtOp.browserClose then Except.error () else Except.ok 0

/-- An environment in which `new_page()` raises and every other call
succeeds. -/
def envNewPageThrow : Env := fun op =>
  if op = ExtOp.newPage then Except.error () else Except.ok 0

/-- A session state with the full handle chain live. -/
def mLive : Manager :=
  { browser_type := chromiumChars, headless := true, viewport_width := 1920,
    viewport_height := 1080, initFlag := true, playwright := some 1,
    browser := some 2, context := some 3, page := some (some 4) }

end McpTools

namespace McpTools

/-- External call `op` succeeds under `env`. -/
def extOk (env : Env) (op : ExtOp) : Prop := ∃ n, env op = Except.ok n

theorem kill_eq_filter (ps : List ProcInfo) :
    kill_all_chrome_instances ps = ps.filter shouldTerminate := by
  induction ps with
  | nil => rfl
  | cons p rest ih =>
      by_cases h : shouldTerminate p = true <;>
        simp [kill_all_chrome_instances, List.filter_cons, h, ih]

theorem shouldTerminate_iff (p : ProcInfo) :
    shouldTerminate p = true ↔ nameMatchesBrowserSig p ∧ exeMatchesEngineSig p := by
  unfold shouldTerminate nameMatchesBrowserSig exeMatchesEngineSig
  cases hn : p.name with
  | none => simp
  | some n =>
      cases he : p.exe with
      | none => simp
      | some e =>
          simp only [Option.some.injEq, Bool.and_eq_true, Bool.not_eq_true']
          constructor
          · rintro ⟨⟨-, hcn⟩, -, hce⟩
            exact ⟨⟨n, rfl, hcn⟩, ⟨e, rfl, hce⟩⟩
          · rintro ⟨⟨n2, hn2, hcn⟩, ⟨e2, he2, hce⟩⟩
            cases hn2
            cases he2
            refine ⟨⟨?_, hcn⟩, ?_, hce⟩
            · cases n with
              | nil => simp [lowerChars] at hcn; exact absurd hcn (by decide)
              | cons a as => rfl
            · cases e with
              | nil => simp [lowerChars] at hce; exact absurd hce (by decide)
              | cons a as => rfl

/-- C3: a scanned process receives a terminate signal exactly when its
name matches the browser signature (`chrome`, case-insensitive) and
its executable path contains the automation-engine marker
(`playwright`, case-insensitive); a process satisfying only one of
the two conditions is never terminated. -/
theorem c3_kill_exactly_matching (ps : List ProcInfo) (p : ProcInfo) :
    p ∈ kill_all_chrome_instances ps ↔
      p ∈ ps ∧ nameMatchesBrowserSig p ∧ exeMatchesEngineSig p := by
  rw [kill_eq_filter, List.mem_filter, shouldTerminate_iff]

theorem andThen_ok_elim (r : StepResult) (f : Manager → StepResult)
    (m2 : Manager) (t : List ExtOp) (h : andThen r f = (m2, t, none)) :
    ∃ m1 t1 t2, r = (m1, t1, none) ∧ f m1 = (m2, t2, none) ∧ t = t1 ++ t2 := by
  rcases r with ⟨m1, t1, e⟩
  cases e with
  | none =>
      rcases hf : f m1 with ⟨ma, ta, ea⟩
      simp only [andThen, hf, Prod.mk.injEq] at h
      exact ⟨m1, t1, ta, rfl, by rw [hf, h.1, h.2.2], h.2.1.symm⟩
  | some e =>
      simp [andThen] at h

theorem stepCloseContext_ok (env : Env) (m m2 : Manager) (t : List ExtOp)
    (h : stepCloseContext env m = (m2, t, none)) :
    m2.context = none ∧ m2.browser = m.browser ∧
      m2.playwright = m.playwright ∧ m2.page = m.page := by
  unfold stepCloseContext at h
  repeat' split at h
  all_goals (try simp only [Prod.mk.injEq] at h)
  all_goals (try (obtain ⟨h1, h2⟩ := h; try subst h1))
  all_goals simp_all

theorem stepCloseBrowser_ok (env : Env) (m m2 : Manager) (t : List ExtOp)
    (h : stepCloseBrowser env m = (m2, t, none)) :
    m2.browser = none ∧ m2.context = m.context ∧
      m2.playwright = m.playwright ∧ m2.page = m.page := by
  unfold stepCloseBrowser at h
  repeat' split at h
  all_goals (try simp only [Prod.mk.injEq] at h)
  all_goals (try (obtain ⟨h1, h2⟩ := h; try subst h1))
  all_goals simp_all

theorem stepStopPlaywright_ok (env : Env) (m m2 : Manager) (t : List ExtOp)
    (h : stepStopPlaywright env m = (m2, t, none)) :
    m2.playwright = none ∧ m2.context = m.context ∧
      m2.browser = m.browser ∧ m2.page = m.page := by
  unfold stepStopPlaywright at h
  repeat' split at h
  all_goals (try simp only [Prod.mk.injEq] at h)
  all_goals (try (obtain ⟨h1, h2⟩ := h; try subst h1))
  all_goals simp_all

theorem stepClosePage_ok (env : Env) (m m2 : Manager) (t : List ExtOp)
    (h : stepClosePage env m = (m2, t, none)) :
    m2.page = some none ∧ m2.context = m.context ∧
      m2.browser = m.browser ∧ m2.playwright = m.playwright := by
  unfold stepClosePage at h
  repeat' split at h
  all_goals (try simp only [Prod.mk.injEq] at h)
  all_goals (try (obtain ⟨h1, h2⟩ := h; try subst h1))
  all_goals simp_all

theorem close_ok_shape (m : Manager) (env : Env) (m2 : Manager) (t : List ExtOp)
    (h : close m env = (m2, t, none)) :
    m2.playwright = none ∧ m2.browser = none ∧ m2.context = none ∧
      m2.page = some none := by
  unfold close at h
  obtain ⟨ma, ta, tb, ha, hb, -⟩ := andThen_ok_elim _ _ _ _ h
  obtain ⟨mc, tc, td, hc, hd, -⟩ := andThen_ok_elim _ _ _ _ ha
  obtain ⟨me, te, tf, he, hf, -⟩ := andThen_ok_elim _ _ _ _ hc
  obtain ⟨e1, e2, e3, e4⟩ := stepCloseContext_ok env m me te he
  obtain ⟨f1, f2, f3, f4⟩ := stepCloseBrowser_ok env me mc tf hf
  obtain ⟨g1, g2, g3, g4⟩ := stepStopPlaywright_ok env mc ma td hd
  obtain ⟨k1, k2, k3, k4⟩ := stepClosePage_ok env ma m2 tb hb
  refine ⟨?_, ?_, ?_, k1⟩
  · rw [k4, g1]
  · rw [k3, g3, f1]
  · rw [k2, g2, f2, e1]

/-- C7: `close` is idempotent — in a state where every handle is
already null it issues no external call, does not fail and leaves the
state unchanged; and after any `close` that completed without raising,
a second `close` is exactly such a no-op. -/
theorem c7_close_idempotent :
    (∀ (m : Manager) (env : Env),
        m.playwright = none → m.browser = none → m.context = none →
        m.page = some none → close m env = (m, [], none)) ∧
    (∀ (m : Manager) (env : Env) (m2 : Manager) (t : List ExtOp),
        close m env = (m2, t, none) →
        ∀ env2 : Env, close m2 env2 = (m2, [], none)) := by
  constructor
  · intro m env h1 h2 h3 h4
    simp [close, andThen, stepCloseContext, stepCloseBrowser, stepStopPlaywright,
      stepClosePage, h1, h2, h3, h4]
  · intro m env m2 t h env2
    obtain ⟨h1, h2, h3, h4⟩ := close_ok_shape m env m2 t h
    simp [close, andThen, stepCloseContext, stepCloseBrowser, stepStopPlaywright,
      stepClosePage, h1, h2, h3, h4]

/-- The fully torn-down state reached after a completed `close` from
`mLive`. -/
def mTornDown : Manager :=
  { mLive with
    playwright := none
    browser := none
    context := none
    page := some none }

/-- Closed instance of C7's theorem at a concrete torn-down state. -/
theorem c7_witness : close mTornDown envAllOk = (mTornDown, [], none) :=
  c7_close_idempotent.1 mTornDown envAllOk rfl rfl rfl rfl

/-- The external calls `close` is expected to issue: one close per
non-null handle, in the source order context, browser, engine, page. -/
def closeTrace (m : Manager) : List ExtOp :=
  (match m.context with | some _ => [ExtOp.ctxClose] | none => []) ++
  (match m.browser with | some _ => [ExtOp.browserClose] | none => []) ++
  (match m.playwright with | some _ => [ExtOp.pwStop] | none => []) ++
  (match m.page with | some (some _) => [ExtOp.pageClose] | _ => [])

/-- C8: when no teardown call raises, `close` issues its external
calls in the order context-close, browser-close, engine-stop,
page-close, skipping exactly the steps whose handle is null. -/
theorem c8_close_order (m : Manager) (env : Env)
    (h1 : extOk env ExtOp.ctxClose) (h2 : extOk env ExtOp.browserClose)
    (h3 : extOk env ExtOp.pwStop) (h4 : extOk env ExtOp.pageClose) :
    (close m env).2.1 = closeTrace m := by
  obtain ⟨n1, e1⟩ := h1
  obtain ⟨n2, e2⟩ := h2
  obtain ⟨n3, e3⟩ := h3
  obtain ⟨n4, e4⟩ := h4
  rcases hc : m.context with _ | c <;>
    rcases hb : m.browser with _ | b <;>
      rcases hpw : m.playwright with _ | a <;>
        rcases hpg : m.page with _ | (_ | p) <;>
          simp [close, andThen, stepCloseContext, stepCloseBrowser,
            stepStopPlaywright, stepClosePage, closeTrace, hc, hb, hpw, hpg,
            e1, e2, e3, e4]

/-- Closed instance of C8's theorem at the fully live state. -/
theorem c8_witness :
    (close mLive envAllOk).2.1 =
      [ExtOp.ctxClose, ExtOp.browserClose, ExtOp.pwStop, ExtOp.pageClose] :=
  (c8_close_order mLive envAllOk ⟨0, rfl⟩ ⟨0, rfl⟩ ⟨0, rfl⟩ ⟨0, rfl⟩).trans
    (by decide)

/-- C10: re-running `__init__` on the already-marked singleton keeps
the stored configuration (the new arguments are ignored), nulls the
`playwright`, `browser` and `context` handles, and leaves the `page`
attribute untouched — all without issuing any close call. -/
theorem c10_singleton_reinit (m : Manager) (bt : List Char) (hl : Bool)
    (vw vh : Nat) (h : m.initFlag = true) :
    pwInit m bt hl vw vh =
      { m with playwright := none, browser := none, context := none } := by
  simp [pwInit, h]

/-- Closed instance of C10's theorem: a live chromium session
re-constructed with different arguments keeps its configuration and
its page handle while the other three handles are nulled. -/
theorem c10_witness :
    pwInit mLive [] true 1 2 =
      { mLive with playwright := none, browser := none, context := none } :=
  c10_singleton_reinit mLive [] true 1 2 rfl

/-- C1 (counterexample): from the fully live state, a raising
`context.close()` makes `close` propagate the failure immediately —
no handle is nulled (browser, engine and page are all still set) and
no later teardown step runs. -/
theorem c1_counterexample :
    close mLive envCtxCloseThrow =
      (mLive, [ExtOp.ctxClose], some PError.extFailure) ∧
    mLive.browser = some 2 ∧ mLive.playwright = some 1 ∧
    mLive.page = some (some 4) := by
  decide

/-- C1 (amended): `close` nulls a handle only after that handle's
close call returns; the first raising step propagates its exception,
leaves its own and every later handle unchanged, and skips all
remaining teardown steps. -/
theorem c1_amended (m : Manager) (env : Env) (c b a p : Nat)
    (hc : m.context = some c) (hb : m.browser = some b)
    (ha : m.playwright = some a) (hp : m.page = some (some p)) :
    (env ExtOp.ctxClose = Except.error () →
      close m env = (m, [ExtOp.ctxClose], some PError.extFailure)) ∧
    (∀ n1, env ExtOp.ctxClose = Except.ok n1 →
      env ExtOp.browserClose = Except.error () →
      close m env = ({ m with context := none },
        [ExtOp.ctxClose, ExtOp.browserClose], some PError.extFailure)) ∧
    (∀ n1 n2, env ExtOp.ctxClose = Except.ok n1 →
      env ExtOp.browserClose = Except.ok n2 →
      env ExtOp.pwStop = Except.error () →
      close m env = ({ m with context := none, browser := none },
        [ExtOp.ctxClose, ExtOp.browserClose, ExtOp.pwStop],
        some PError.extFailure)) ∧
    (∀ n1 n2 n3, env ExtOp.ctxClose = Except.ok n1 →
      env ExtOp.browserClose = Except.ok n2 →
      env ExtOp.pwStop = Except.ok n3 →
      env ExtOp.pageClose = Except.error () →
      close m env = ({ m with context := none, browser := none, playwright := none },
        [ExtOp.ctxClose, ExtOp.browserClose, ExtOp.pwStop, ExtOp.pageClose],
        some PError.extFailure)) := by
  refine ⟨fun he => ?_, fun n1 e1 he => ?_, fun n1 n2 e1 e2 he => ?_,
    fun n1 n2 n3 e1 e2 e3 he => ?_⟩ <;>
    simp [close, andThen, stepCloseContext, stepCloseBrowser, stepStopPlaywright,
      stepClosePage, hc, hb, ha, hp, he, *]

/-- Closed instance of C1's amended theorem: the raising context-close
case at the fully live state. -/
theorem c1_witness :
    close mLive envCtxCloseThrow =
      (mLive, [ExtOp.ctxClose], some PError.extFailure) :=
  (c1_amended mLive envCtxCloseThrow 3 2 1 4 rfl rfl rfl rfl).1 rfl

end McpTools

namespace McpTools

theorem stepEnsurePlaywright_ok (env : Env) (m m2 : Manager) (t : List ExtOp)
    (h : stepEnsurePlaywright env m = (m2, t, none)) :
    (∃ a, m2.playwright = some a) ∧ m2.browser = m.browser ∧
      m2.context = m.context ∧ m2.page = m.page := by
  unfold stepEnsurePlaywright at h
  repeat' split at h
  all_goals (try simp only [Prod.mk.injEq] at h)
  all_goals (try (obtain ⟨h1, h2⟩ := h; try subst h1))
  all_goals simp_all

theorem stepLaunchBrowser_ok (env : Env) (m m2 : Manager) (t : List ExtOp)
    (h : stepLaunchBrowser env m = (m2, t, none)) :
    (∃ b, m2.browser = some b) ∧ m2.playwright = m.playwright := by
  unfold stepLaunchBrowser at h
  repeat' split at h
  all_goals (try simp only [Prod.mk.injEq] at h)
  all_goals (try (obtain ⟨h1, h2⟩ := h; try subst h1))
  all_goals simp_all

theorem stepEnsureContext_ok (env : Env) (m m2 : Manager) (t : List ExtOp)
    (h : stepEnsureContext env m = (m2, t, none)) :
    (∃ c, m2.context = some c) ∧ m2.playwright = m.playwright ∧
      m2.browser = m.browser ∧ m2.page = m.page := by
  unfold stepEnsureContext at h
  repeat' split at h
  all_goals (try simp only [Prod.mk.injEq] at h)
  all_goals (try (obtain ⟨h1, h2⟩ := h; try subst h1))
  all_goals simp_all

theorem stepEnsurePage_ok (env : Env) (m m2 : Manager) (t : List ExtOp)
    (h : stepEnsurePage env m = (m2, t, none)) :
    (∃ p, m2.page = some (some p)) ∧ m2.playwright = m.playwright ∧
      m2.browser = m.browser ∧ m2.context = m.context := by
  unfold stepEnsurePage at h
  repeat' split at h
  all_goals (try simp only [Prod.mk.injEq] at h)
  all_goals (try (obtain ⟨h1, h2⟩ := h; try subst h1))
  all_goals simp_all

theorem ensure_ok_elim (m : Manager) (env : Env) (m2 : Manager)
    (t : List ExtOp) (v : Option Nat)
    (h : ensure_browser m env = (m2, t, Except.ok v)) :
    andThen (andThen (andThen (stepEnsurePlaywright env m)
        (stepLaunchBrowser env)) (stepEnsureContext env)) (stepEnsurePage env) =
      (m2, t, none) ∧ m2.page = some v := by
  unfold ensure_browser at h
  rcases hr : andThen (andThen (andThen (stepEnsurePlaywright env m)
      (stepLaunchBrowser env)) (stepEnsureContext env)) (stepEnsurePage env)
    with ⟨ma, ta, ea⟩
  rw [hr] at h
  cases ea with
  | some e => simp at h
  | none =>
      rcases hpg : ma.page with _ | v2
      · simp [hpg] at h
      · simp [hpg, Prod.mk.injEq, Except.ok.injEq] at h
        obtain ⟨h1, h2, h3⟩ := h
        subst h1
        subst h2
        subst h3
        exact ⟨rfl, hpg⟩

theorem ensure_ok_shape (m : Manager) (env : Env) (m2 : Manager)
    (t : List ExtOp) (v : Option Nat)
    (h : ensure_browser m env = (m2, t, Except.ok v)) :
    (∃ a, m2.playwright = some a) ∧ (∃ b, m2.browser = some b) ∧
      (∃ c, m2.context = some c) ∧ (∃ p, v = some p) ∧ m2.page = some v := by
  obtain ⟨hchain, hpage⟩ := ensure_ok_elim m env m2 t v h
  obtain ⟨ma, ta, tb, ha, hb, -⟩ := andThen_ok_elim _ _ _ _ hchain
  obtain ⟨mc, tc, td, hc, hd, -⟩ := andThen_ok_elim _ _ _ _ ha
  obtain ⟨me, te, tf, he, hf, -⟩ := andThen_ok_elim _ _ _ _ hc
  obtain ⟨⟨a, e1⟩, -, -, -⟩ := stepEnsurePlaywright_ok env m me te he
  obtain ⟨⟨b, f1⟩, f2⟩ := stepLaunchBrowser_ok env me mc tf hf
  obtain ⟨⟨c, g1⟩, g2, g3, -⟩ := stepEnsureContext_ok env mc ma td hd
  obtain ⟨⟨p, k1⟩, k2, k3, k4⟩ := stepEnsurePage_ok env ma m2 tb hb
  refine ⟨⟨a, ?_⟩, ⟨b, ?_⟩, ⟨c, ?_⟩, ⟨p, ?_⟩, hpage⟩
  · rw [k2, g2, f2, e1]
  · rw [k3, g3, f1]
  · rw [k4, g1]
  · rw [hpage] at k1
    exact (Option.some.injEq _ _).mp k1

theorem ensure_all_present (m : Manager) (env : Env) (a b c p : Nat)
    (ha : m.playwright = some a) (hb : m.browser = some b)
    (hc : m.context = some c) (hp : m.page = some (some p)) :
    ensure_browser m env = (m, [], Except.ok (some p)) := by
  simp [ensure_browser, andThen, stepEnsurePlaywright, stepLaunchBrowser,
    stepEnsureContext, stepEnsurePage, ha, hb, hc, hp]

/-- C2: once an `ensure_browser` call has succeeded, every later
`ensure_browser` call (with no intervening `close`) leaves the state
untouched, issues no external call, and returns the same page handle
as that first successful call. -/
theorem c2_page_identity_stability (m : Manager) (env : Env) (m2 : Manager)
    (t : List ExtOp) (v : Option Nat)
    (h : ensure_browser m env = (m2, t, Except.ok v)) :
    ∀ envs : List Env,
      runEnsureSeq m2 envs = (m2, envs.map fun _ => Except.ok v) := by
  obtain ⟨⟨a, ha⟩, ⟨b, hb⟩, ⟨c, hc⟩, ⟨p, hp⟩, hpg⟩ := ensure_ok_shape m env m2 t v h
  subst hp
  intro envs
  induction envs with
  | nil => rfl
  | cons e rest ih =>
      rw [List.map_cons]
      simp only [runEnsureSeq,
        ensure_all_present m2 e a b c p ha hb hc hpg, ih]

/-- The state after the first successful acquisition from the default
construction under an all-succeeding environment. -/
def mAfterFirst : Manager :=
  { browser_type := chromiumChars, headless := false, viewport_width := 1920,
    viewport_height := 1080, initFlag := true, playwright := some 0,
    browser := some 0, context := some 0, page := some (some 0) }

/-- Closed instance of C2's theorem: two further calls after the first
successful acquisition both return the same page without touching the
state. -/
theorem c2_witness :
    runEnsureSeq mAfterFirst [envAllOk, envAllOk] =
      (mAfterFirst, [Except.ok (some 0), Except.ok (some 0)]) :=
  c2_page_identity_stability defaultConstruct envAllOk mAfterFirst
    [ExtOp.pwStart, ExtOp.launch chromiumChars false,
      ExtOp.newContextViewport 1920 1080, ExtOp.newPage]
    (some 0) (by rfl) [envAllOk, envAllOk]

end McpTools

namespace McpTools

set_option maxHeartbeats 2000000 in
theorem ensure_preserves_chain (m : Manager) (env : Env)
    (h : chainInv m = true) : chainInv (ensure_browser m env).1 = true := by
  rcases hpw : m.playwright with _ | a <;>
  rcases hb : m.browser with _ | b <;>
  rcases hc : m.context with _ | c <;>
  rcases hpg : m.page with _ | (_ | p) <;>
  rcases e1 : env ExtOp.pwStart with u1 | n1 <;>
  rcases e2 : env (ExtOp.launch m.browser_type m.headless) with u2 | n2 <;>
  rcases e3 : env (ExtOp.newContextViewport m.viewport_width m.viewport_height)
    with u3 | n3 <;>
  rcases e4 : env ExtOp.newPage with u4 | n4 <;>
  rcases e5 : env ExtOp.newContextDefault with u5 | n5 <;>
  (unfold ensure_browser andThen stepEnsurePlaywright stepLaunchBrowser
    stepEnsureContext stepEnsurePage) <;>
  simp_all [chainInv, pageNonNull]

end McpTools

namespace McpTools

theorem close_ok_env_chain (m : Manager) (env : Env)
    (hok : ∀ op, ∃ n, env op = Except.ok n) : chainInv (close m env).1 = true := by
  obtain ⟨n1, e1⟩ := hok ExtOp.ctxClose
  obtain ⟨n2, e2⟩ := hok ExtOp.browserClose
  obtain ⟨n3, e3⟩ := hok ExtOp.pwStop
  obtain ⟨n4, e4⟩ := hok ExtOp.pageClose
  rcases hc : m.context with _ | c <;>
    rcases hb : m.browser with _ | b <;>
      rcases hpw : m.playwright with _ | a <;>
        rcases hpg : m.page with _ | (_ | p) <;>
          simp [close, andThen, stepCloseContext, stepCloseBrowser,
            stepStopPlaywright, stepClosePage, chainInv, pageNonNull,
            hc, hb, hpw, hpg, e1, e2, e3, e4]

/-- C4 (counterexample): the ownership chain is not preserved by every
operation — from the fully live (chain-respecting) state, a `close`
whose browser-close call raises leaves `page` non-null while `context`
is already nulled. -/
theorem c4_counterexample :
    chainInv mLive = true ∧
    chainInv (close mLive envBrowserCloseThrow).1 = false := by
  decide

/-- C4 (amended): the ownership chain holds at first construction, is
preserved by every `ensure_browser` call (even when external calls
raise), and is re-established by any `close` whose external calls all
succeed; it is not preserved by a `close` interrupted by a raising
step, nor by re-construction on a live session. -/
theorem c4_amended :
    chainInv defaultConstruct = true ∧
    (∀ (m : Manager) (env : Env), chainInv m = true →
        chainInv (ensure_browser m env).1 = true) ∧
    (∀ (m : Manager) (env : Env), (∀ op, ∃ n, env op = Except.ok n) →
        chainInv (close m env).1 = true) :=
  ⟨by decide, ensure_preserves_chain, close_ok_env_chain⟩

/-- Closed instance of C4's amended theorem at concrete states. -/
theorem c4_witness :
    chainInv (ensure_browser defaultConstruct envAllOk).1 = true ∧
    chainInv (close mLive envAllOk).1 = true :=
  ⟨c4_amended.2.1 defaultConstruct envAllOk (by decide),
   c4_amended.2.2 mLive envAllOk (fun op => ⟨0, rfl⟩)⟩

/-- C5 (counterexample): a live `chromium`/headless session — the
handler prelude of `browser_save_as_pdf` mutates the stored
configuration (`headless` flips to `False`) without performing any
teardown: no external call is issued and the browser handle is still
live afterwards. -/
theorem c5_counterexample :
    mLive.headless = true ∧ mLive.browser = some 2 ∧
    savePdfConfig mLive envAllOk = ({ mLive with headless := false }, [], none) ∧
    ({ mLive with headless := false }).browser = some 2 := by
  decide

theorem config_andThen (r : StepResult) (f : Manager → StepResult)
    (hf : ∀ m1, config (f m1).1 = config m1) :
    config (andThen r f).1 = config r.1 := by
  rcases r with ⟨m1, t1, e⟩
  cases e with
  | some e => rfl
  | none =>
      rcases hfm : f m1 with ⟨ma, ta, ea⟩
      have h2 := hf m1
      rw [hfm] at h2
      simpa [andThen, hfm] using h2

theorem config_stepEnsurePlaywright (env : Env) (m : Manager) :
    config (stepEnsurePlaywright env m).1 = config m := by
  unfold stepEnsurePlaywright
  repeat' split
  all_goals rfl

theorem config_stepLaunchBrowser (env : Env) (m : Manager) :
    config (stepLaunchBrowser env m).1 = config m := by
  unfold stepLaunchBrowser
  repeat' split
  all_goals rfl

theorem config_stepEnsureContext (env : Env) (m : Manager) :
    config (stepEnsureContext env m).1 = config m := by
  unfold stepEnsureContext
  repeat' split
  all_goals rfl

theorem config_stepEnsurePage (env : Env) (m : Manager) :
    config (stepEnsurePage env m).1 = config m := by
  unfold stepEnsurePage
  repeat' split
  all_goals rfl

theorem config_stepCloseContext (env : Env) (m : Manager) :
    config (stepCloseContext env m).1 = config m := by
  unfold stepCloseContext
  repeat' split
  all_goals rfl

theorem config_stepCloseBrowser (env : Env) (m : Manager) :
    config (stepCloseBrowser env m).1 = config m := by
  unfold stepCloseBrowser
  repeat' split
  all_goals rfl

theorem config_stepStopPlaywright (env : Env) (m : Manager) :
    config (stepStopPlaywright env m).1 = config m := by
  unfold stepStopPlaywright
  repeat' split
  all_goals rfl

theorem config_stepClosePage (env : Env) (m : Manager) :
    config (stepClosePage env m).1 = config m := by
  unfold stepClosePage
  repeat' split
  all_goals rfl

theorem ensure_fst (m : Manager) (env : Env) :
    (ensure_browser m env).1 =
      (andThen (andThen (andThen (stepEnsurePlaywright env m)
        (stepLaunchBrowser env)) (stepEnsureContext env))
        (stepEnsurePage env)).1 := by
  unfold ensure_browser
  rcases hr : andThen (andThen (andThen (stepEnsurePlaywright env m)
      (stepLaunchBrowser env)) (stepEnsureContext env)) (stepEnsurePage env)
    with ⟨ma, ta, ea⟩
  cases ea with
  | some e => rfl
  | none => rcases hpg : ma.page with _ | v <;> simp [hpg]

theorem ensure_config (m : Manager) (env : Env) :
    config (ensure_browser m env).1 = config m := by
  rw [ensure_fst]
  rw [config_andThen _ _ (fun m1 => config_stepEnsurePage env m1)]
  rw [config_andThen _ _ (fun m1 => config_stepEnsureContext env m1)]
  rw [config_andThen _ _ (fun m1 => config_stepLaunchBrowser env m1)]
  exact config_stepEnsurePlaywright env m

theorem close_config (m : Manager) (env : Env) :
    config (close m env).1 = config m := by
  unfold close
  rw [config_andThen _ _ (fun m1 => config_stepClosePage env m1)]
  rw [config_andThen _ _ (fun m1 => config_stepStopPlaywright env m1)]
  rw [config_andThen _ _ (fun m1 => config_stepCloseBrowser env m1)]
  exact config_stepCloseContext env m

/-- C5 (amended): the two session-manager operations never change the
stored configuration — in any state and under any environment,
`ensure_browser` and `close` leave `browser_type`, `headless` and the
viewport untouched; the mutation of a live session's configuration is
done only by the `browser_save_as_pdf` handler prelude, which forces
`browser_type = chromium` and `headless = False` and skips teardown
exactly when the configuration is already chromium with
`headless = True`. -/
theorem c5_amended :
    (∀ (m : Manager) (env : Env), config (ensure_browser m env).1 = config m) ∧
    (∀ (m : Manager) (env : Env), config (close m env).1 = config m) ∧
    (∀ (m : Manager) (env : Env),
        m.browser_type = chromiumChars → m.headless = true →
        savePdfConfig m env =
          ({ m with browser_type := chromiumChars, headless := false }, [], none)) := by
  refine ⟨ensure_config, close_config, fun m env hbt hh => ?_⟩
  simp [savePdfConfig, hbt, hh]

/-- Closed instance of C5's amended theorem at concrete states. -/
theorem c5_witness :
    config (ensure_browser defaultConstruct envAllOk).1 = config defaultConstruct ∧
    config (close mLive envAllOk).1 = config mLive ∧
    savePdfConfig mLive envAllOk =
      ({ mLive with browser_type := chromiumChars, headless := false }, [], none) :=
  ⟨c5_amended.1 defaultConstruct envAllOk, c5_amended.2.1 mLive envAllOk,
   c5_amended.2.2 mLive envAllOk rfl rfl⟩

end McpTools

namespace McpTools

/-- C6: whenever `ensure_browser` runs in a state where the browser
handle exists but the context handle is null, no context is ever
created with the stored viewport — the viewport-carrying creation
happens only on the launch path, which is skipped here — and any
completing call created the replacement context with default
options. -/
theorem c6_context_recreated_default (m : Manager) (env : Env) (b : Nat)
    (hb : m.browser = some b) (hc : m.context = none) :
    (∀ w h, ExtOp.newContextViewport w h ∉ (ensure_browser m env).2.1) ∧
    ((∃ m2 t v, ensure_browser m env = (m2, t, Except.ok v)) →
        ExtOp.newContextDefault ∈ (ensure_browser m env).2.1) := by
  rcases hpw : m.playwright with _ | a <;>
  rcases e1 : env ExtOp.pwStart with u1 | n1 <;>
  rcases e5 : env ExtOp.newContextDefault with u5 | n5 <;>
  rcases hpg : m.page with _ | (_ | p) <;>
  rcases e4 : env ExtOp.newPage with u4 | n4 <;>
  (unfold ensure_browser andThen stepEnsurePlaywright stepLaunchBrowser
    stepEnsureContext stepEnsurePage) <;>
  simp_all

/-- The live state with an externally closed (nulled) context and a
page attribute holding `None`. -/
def mCtxMissing : Manager :=
  { mLive with
    context := none
    page := some none }

/-- Closed instance of C6's theorem at a concrete state. -/
theorem c6_witness :
    (∀ w h, ExtOp.newContextViewport w h ∉
        (ensure_browser mCtxMissing envAllOk).2.1) ∧
    ExtOp.newContextDefault ∈ (ensure_browser mCtxMissing envAllOk).2.1 :=
  ⟨(c6_context_recreated_default mCtxMissing envAllOk 2 rfl rfl).1,
   (c6_context_recreated_default mCtxMissing envAllOk 2 rfl rfl).2
     ⟨{ mCtxMissing with context := some 0, page := some (some 0) },
      [ExtOp.newContextDefault, ExtOp.newPage], some 0, by rfl⟩⟩

/-- C9: the failing behaviour of `ensure_browser` around the
never-assigned `page` attribute — starting from the default-constructed
session, a first acquisition whose initial page creation raises leaves
browser and context live with the `page` attribute still absent; the
next acquisition, even with every external call succeeding, fails with
`AttributeError` at `if not self.page` instead of returning a page. -/
theorem c9_uninit_page_attr :
    (ensure_browser defaultConstruct envNewPageThrow).2.2 =
      Except.error PError.extFailure ∧
    (ensure_browser defaultConstruct envNewPageThrow).1.browser = some 0 ∧
    (ensure_browser defaultConstruct envNewPageThrow).1.context = some 0 ∧
    (ensure_browser defaultConstruct envNewPageThrow).1.page = none ∧
    ensure_browser (ensure_browser defaultConstruct envNewPageThrow).1 envAllOk =
      ((ensure_browser defaultConstruct envNewPageThrow).1, [],
        Except.error PError.attrError) :=
  ⟨rfl, rfl, rfl, rfl, rfl⟩

end McpTools
